import Mathlib

/-!
Shallow embedding of the mini-VDD dispatch core of vmdisp9x (src/minivdd.c,
src/vmm.h), together with theorems checking the natural-language specification
against it.

The embedding models, faithfully to the C source:
 - the client register-state snapshot CRS_32 (vmm.h), restricted to the
   general-purpose registers and the carry bit of Client_EFlags that the
   handlers in minivdd.c read or write;
 - every VDDPROC handler defined in minivdd.c, under the SVGA build
   configuration (the `#ifdef SVGA` branches are active, as the spec
   describes the SVGA-backed behaviour);
 - the two global-trapping wrappers Enable_Global_Trapping and
   Disable_Global_Trapping, whose effect on the host monitor's per-port
   trap-ownership flag is modelled per the spec's port-trapping service
   contract (the VMM service they invoke is an external collaborator).

Machine integers are Nat with an explicit `% 2 ^ 32` where the C code can
overflow 32 bits.
-/

/-- Modelled from the spec: the adapter query interface of the missing
svga_all.h header (the global `gSVGA` device record and the
`svga_init_success` flag): an `initialized` boolean gating all queries,
16-bit vendor and device identifiers, and a VRAM-size register readable
through `readRegister`. -/
structure SVGAState where
  svga_init_success : Bool
  vendorId : Nat
  deviceId : Nat
  vramSize : Nat
deriving Repr

/-- Modelled from the spec: the identifier of the VRAM-size register of the
adapter query interface (`readRegister(id)`); the numeric value is taken from
the SVGA register map and is irrelevant to the claims. -/
def SVGA_REG_VRAM_SIZE : Nat := 15

/-- Modelled from the spec: `readRegister(id) -> 32-bit value` of the adapter
query interface (`SVGA_ReadReg` of the missing svga_all.h header). -/
def SVGA_ReadReg (svga : SVGAState) (reg : Nat) : Nat :=
  if reg = SVGA_REG_VRAM_SIZE then svga.vramSize else 0

/-- Client register-state snapshot, from `struct tagCRS_32` in src/vmm.h,
restricted to the fields the handlers touch. `carryFlag` is the carry bit of
`Client_EFlags`; the `VDD_CY` / `VDD_NC` macros live in the minivdd32.h header
that is not under src/, and are modelled from the spec's carry-flag success
convention: `VDD_CY` sets the bit (handled), `VDD_NC` clears it (unhandled). -/
structure CRS_32 where
  Client_EDI : Nat
  Client_ESI : Nat
  Client_EBP : Nat
  Client_EBX : Nat
  Client_EDX : Nat
  Client_ECX : Nat
  Client_EAX : Nat
  carryFlag : Bool
deriving Repr, DecidableEq

/-- Full machine state visible to a handler invocation: the per-call register
snapshot plus the host monitor's per-port global-trapping ownership flags
(`true` = host-trapped). -/
structure VDDState where
  crs : CRS_32
  traps : Nat → Bool

/-- Effect of the `Enable_Global_Trapping` wrapper (src/minivdd.c lines
335-344) on the per-port trap-ownership flag, per the spec's port-trapping
service (`enableGlobalTrap(port)`, idempotent per-port). -/
def Enable_Global_Trapping (port : Nat) (t : Nat → Bool) : Nat → Bool :=
  fun p => if p = port then true else t p

/-- Effect of the `Disable_Global_Trapping` wrapper (src/minivdd.c lines
347-356), per the spec's `disableGlobalTrap(port)`. -/
def Disable_Global_Trapping (port : Nat) (t : Nat → Bool) : Nat → Bool :=
  fun p => if p = port then false else t p

/-- C logical OR `||` on 32-bit integers: 1 when either operand is nonzero,
else 0. The source line 117 of src/minivdd.c uses this operator (not the
bitwise `|`) to combine the shifted vendor id with the device id. -/
def c_logical_or (x y : Nat) : Nat :=
  if x ≠ 0 ∨ y ≠ 0 then 1 else 0

/-- Body of `REGISTER_DISPLAY_DRIVER` (function 0, src/minivdd.c lines 75-78):
`VDD_NC`, clearing the carry flag. -/
def register_display_driver_body (_ : SVGAState) (c : CRS_32) : CRS_32 :=
  { c with carryFlag := false }

/-- Body of `GET_CHIP_ID` (function 42, src/minivdd.c lines 112-123): when the
adapter initialized, `Client_EAX` receives
`(((uint32)gSVGA.vendorId) << 16) || ((uint32)gSVGA.deviceId)` — note the C
logical OR from the source; otherwise `Client_EAX` receives 0. The carry flag
is not touched on either path. -/
def get_chip_id_body (svga : SVGAState) (c : CRS_32) : CRS_32 :=
  if svga.svga_init_success then
    { c with Client_EAX := c_logical_or ((svga.vendorId <<< 16) % 2 ^ 32) svga.deviceId }
  else
    { c with Client_EAX := 0 }

/-- Body of `CHECK_SCREEN_SWITCH_OK` (function 43, src/minivdd.c lines
148-151): empty. -/
def check_screen_switch_ok_body (_ : SVGAState) (c : CRS_32) : CRS_32 := c

/-- Body of `GET_BANK_SIZE` (function 37, src/minivdd.c lines 165-168):
empty. -/
def get_bank_size_body (_ : SVGAState) (c : CRS_32) : CRS_32 := c

/-- Body of `GET_CURRENT_BANK_READ` (function 33, src/minivdd.c lines
176-179): empty. -/
def get_current_bank_read_body (_ : SVGAState) (c : CRS_32) : CRS_32 := c

/-- Body of `GET_CURRENT_BANK_WRITE` (function 32, src/minivdd.c lines
192-195): empty. -/
def get_current_bank_write_body (_ : SVGAState) (c : CRS_32) : CRS_32 := c

/-- Body of `GET_TOTAL_VRAM_SIZE` (function 36, src/minivdd.c lines 215-230):
when the adapter initialized, `Client_ECX` receives the VRAM-size register and
the call reports handled (`VDD_CY`); otherwise `Client_ECX` receives 0 and the
call reports unhandled (`VDD_NC`). -/
def get_total_vram_size_body (svga : SVGAState) (c : CRS_32) : CRS_32 :=
  if svga.svga_init_success then
    { c with Client_ECX := SVGA_ReadReg svga SVGA_REG_VRAM_SIZE, carryFlag := true }
  else
    { c with Client_ECX := 0, carryFlag := false }

/-- Body of `PRE_HIRES_SAVE_RESTORE` (function 39, src/minivdd.c lines
243-246): empty. -/
def pre_hires_save_restore_body (_ : SVGAState) (c : CRS_32) : CRS_32 := c

/-- Body of `POST_HIRES_SAVE_RESTORE` (function 40, src/minivdd.c lines
259-262): empty. -/
def post_hires_save_restore_body (_ : SVGAState) (c : CRS_32) : CRS_32 := c

/-- Body of `SET_BANK` (function 34, src/minivdd.c lines 277-280): empty. -/
def set_bank_body (_ : SVGAState) (c : CRS_32) : CRS_32 := c

/-- Body of `SET_HIRES_MODE` (function 38, src/minivdd.c lines 295-298):
empty. -/
def set_hires_mode_body (_ : SVGAState) (c : CRS_32) : CRS_32 := c

/-- Body of `VESA_CALL_POST_PROCESSING` (function 47, src/minivdd.c lines
312-315): empty. -/
def vesa_call_post_processing_body (_ : SVGAState) (c : CRS_32) : CRS_32 := c

/-- Body of `VESA_SUPPORT` (function 41, src/minivdd.c lines 330-333):
empty. -/
def vesa_support_body (_ : SVGAState) (c : CRS_32) : CRS_32 := c

/-- The handlers defined by a `VDDPROC(...)` in src/minivdd.c. -/
inductive MiniVDDFunc where
  | REGISTER_DISPLAY_DRIVER
  | GET_CHIP_ID
  | CHECK_SCREEN_SWITCH_OK
  | GET_BANK_SIZE
  | GET_CURRENT_BANK_READ
  | GET_CURRENT_BANK_WRITE
  | GET_TOTAL_VRAM_SIZE
  | PRE_HIRES_SAVE_RESTORE
  | POST_HIRES_SAVE_RESTORE
  | SET_BANK
  | SET_HIRES_MODE
  | VESA_CALL_POST_PROCESSING
  | VESA_SUPPORT
  | PRE_HIRES_TO_VGA
  | POST_HIRES_TO_VGA
  | ENABLE_TRAPS
  | DISPLAY_DRIVER_DISABLING
deriving DecidableEq, Repr

/-- Run one handler on the full machine state. The snapshot-only handlers are
lifted from their `_body` functions; the four trapping handlers
(src/minivdd.c lines 359-381) disable or enable global trapping on ports
0x1CE and 0x1CF, in source order. -/
def runFunc (f : MiniVDDFunc) (svga : SVGAState) (s : VDDState) : VDDState :=
  match f with
  | .REGISTER_DISPLAY_DRIVER => { s with crs := register_display_driver_body svga s.crs }
  | .GET_CHIP_ID => { s with crs := get_chip_id_body svga s.crs }
  | .CHECK_SCREEN_SWITCH_OK => { s with crs := check_screen_switch_ok_body svga s.crs }
  | .GET_BANK_SIZE => { s with crs := get_bank_size_body svga s.crs }
  | .GET_CURRENT_BANK_READ => { s with crs := get_current_bank_read_body svga s.crs }
  | .GET_CURRENT_BANK_WRITE => { s with crs := get_current_bank_write_body svga s.crs }
  | .GET_TOTAL_VRAM_SIZE => { s with crs := get_total_vram_size_body svga s.crs }
  | .PRE_HIRES_SAVE_RESTORE => { s with crs := pre_hires_save_restore_body svga s.crs }
  | .POST_HIRES_SAVE_RESTORE => { s with crs := post_hires_save_restore_body svga s.crs }
  | .SET_BANK => { s with crs := set_bank_body svga s.crs }
  | .SET_HIRES_MODE => { s with crs := set_hires_mode_body svga s.crs }
  | .VESA_CALL_POST_PROCESSING => { s with crs := vesa_call_post_processing_body svga s.crs }
  | .VESA_SUPPORT => { s with crs := vesa_support_body svga s.crs }
  | .PRE_HIRES_TO_VGA =>
      { s with traps := Disable_Global_Trapping 0x1CF (Disable_Global_Trapping 0x1CE s.traps) }
  | .POST_HIRES_TO_VGA =>
      { s with traps := Enable_Global_Trapping 0x1CF (Enable_Global_Trapping 0x1CE s.traps) }
  | .ENABLE_TRAPS =>
      { s with traps := Enable_Global_Trapping 0x1CF (Enable_Global_Trapping 0x1CE s.traps) }
  | .DISPLAY_DRIVER_DISABLING =>
      { s with traps := Disable_Global_Trapping 0x1CF (Disable_Global_Trapping 0x1CE s.traps) }

/-- Opcode dispatch table: the function numbers documented in the
src/minivdd.c handler doc comments (the numeric jump table itself lives in
the minivdd32.h header not under src/, whose numbers for the four trapping
handlers are not documented in src/ and are therefore left out of the map;
they remain quantifiable through `MiniVDDFunc`). Unknown opcodes dispatch to
nothing. -/
def dispatch : Nat → Option MiniVDDFunc
  | 0 => some .REGISTER_DISPLAY_DRIVER
  | 32 => some .GET_CURRENT_BANK_WRITE
  | 33 => some .GET_CURRENT_BANK_READ
  | 34 => some .SET_BANK
  | 36 => some .GET_TOTAL_VRAM_SIZE
  | 37 => some .GET_BANK_SIZE
  | 38 => some .SET_HIRES_MODE
  | 39 => some .PRE_HIRES_SAVE_RESTORE
  | 40 => some .POST_HIRES_SAVE_RESTORE
  | 41 => some .VESA_SUPPORT
  | 42 => some .GET_CHIP_ID
  | 43 => some .CHECK_SCREEN_SWITCH_OK
  | 47 => some .VESA_CALL_POST_PROCESSING
  | _ => none

/-- Dispatch an opcode: run the matching handler, or leave the state unchanged
when no descriptor matches. -/
def runOpcode (op : Nat) (svga : SVGAState) (s : VDDState) : VDDState :=
  match dispatch op with
  | some f => runFunc f svga s
  | none => s

/-- An adapter state with the VMware SVGA-II identity of the spec scenario:
initialized, vendor id 0x15AD, device id 0x0405, VRAM size 16 MiB. -/
def svga0 : SVGAState :=
  { svga_init_success := true, vendorId := 0x15AD, deviceId := 0x0405, vramSize := 16777216 }

/-- The same adapter before initialization completes. -/
def svgaOff : SVGAState :=
  { svga0 with svga_init_success := false }

/-- A concrete snapshot with pairwise distinct register values and the carry
flag clear. -/
def crs0 : CRS_32 :=
  { Client_EDI := 10, Client_ESI := 11, Client_EBP := 12, Client_EBX := 13
  , Client_EDX := 14, Client_ECX := 15, Client_EAX := 16, carryFlag := false }

/-- A concrete machine state whose two bank-select ports are host-trapped (the
documented default). -/
def stTrapped : VDDState := { crs := crs0, traps := fun _ => true }

/-- A concrete machine state whose ports are all untrapped. -/
def stUntrapped : VDDState := { crs := crs0, traps := fun _ => false }

/-- A snapshot carrying a set-bank request with read bank 1 (Client_EAX) and
write bank 2 (Client_EDX). -/
def setBankSnapshot : VDDState :=
  { crs := { crs0 with Client_EAX := 1, Client_EDX := 2 }, traps := fun _ => true }

/-- A snapshot for a screen-switch query in a proprietary (non-VESA) mode:
Client_EAX is not -1 (so no known VESA mode) and the carry flag is clear. -/
def proprietarySnapshot : VDDState :=
  { crs := { crs0 with Client_EAX := 0, Client_ECX := 0x1234, carryFlag := false }
  , traps := fun _ => true }

/-- A snapshot carrying a set-hires-mode request with an unrecognized
(proprietary) mode number in Client_EAX and the carry flag clear. -/
def proprietaryModeSnapshot : VDDState :=
  { crs := { crs0 with Client_EAX := 0x1234, carryFlag := false }, traps := fun _ => true }

/-- C1: the get-chip-id handler (opcode 42) on an initialized adapter with
vendor id 0x15AD and device id 0x0405 writes 1 into the snapshot's EAX — not
the composed value 0x15AD0405 the claim states — because the source combines
the shifted vendor id and the device id with the C logical OR operator
instead of the bitwise OR. -/
theorem get_chip_id_logical_or_bug :
    (runOpcode 42 svga0 stTrapped).crs.Client_EAX = 1 ∧
    (runOpcode 42 svga0 stTrapped).crs.Client_EAX ≠ 0x15AD0405 := by
  decide

/-- C2: the get-total-vram-size handler (opcode 36) writes 0 into the
snapshot's ECX and clears the carry flag (unhandled) when the adapter is
uninitialized, and writes the adapter's VRAM-size register value into ECX and
sets the carry flag (handled) when it is initialized. -/
theorem get_total_vram_size_correct :
    ∀ (svga : SVGAState) (s : VDDState),
      (runOpcode 36 svga s).crs.Client_ECX
        = (if svga.svga_init_success then svga.vramSize else 0) ∧
      (runOpcode 36 svga s).crs.carryFlag = svga.svga_init_success := by
  intro svga s
  cases hb : svga.svga_init_success <;>
    simp [runOpcode, dispatch, runFunc, get_total_vram_size_body, hb,
      SVGA_ReadReg, SVGA_REG_VRAM_SIZE]

/-- C3 counterexample: starting with both bank-select ports untrapped, running
the pre-hires-to-vga handler and then the post-hires-to-vga handler leaves
port 0x1CE host-trapped, different from its value before the pair ran — the
claimed round-trip fails for initially-disabled flags, since the post handler
unconditionally enables both ports. -/
theorem hires_to_vga_pair_not_roundtrip :
    (runFunc MiniVDDFunc.POST_HIRES_TO_VGA svga0
        (runFunc MiniVDDFunc.PRE_HIRES_TO_VGA svga0 stUntrapped)).traps 0x1CE ≠
      stUntrapped.traps 0x1CE := by
  decide

/-- C3 amended: running pre-hires-to-vga then post-hires-to-vga leaves both
bank-select ports' trap-ownership flags enabled; in particular, whenever both
flags were enabled before the pair ran (the documented default host-trapped
state), each flag equals its value before the pair ran. -/
theorem hires_to_vga_pair_enables_both :
    ∀ (svga : SVGAState) (s : VDDState),
      (runFunc MiniVDDFunc.POST_HIRES_TO_VGA svga
          (runFunc MiniVDDFunc.PRE_HIRES_TO_VGA svga s)).traps 0x1CE = true ∧
      (runFunc MiniVDDFunc.POST_HIRES_TO_VGA svga
          (runFunc MiniVDDFunc.PRE_HIRES_TO_VGA svga s)).traps 0x1CF = true ∧
      (s.traps 0x1CE = true → s.traps 0x1CF = true →
        (runFunc MiniVDDFunc.POST_HIRES_TO_VGA svga
            (runFunc MiniVDDFunc.PRE_HIRES_TO_VGA svga s)).traps 0x1CE = s.traps 0x1CE ∧
        (runFunc MiniVDDFunc.POST_HIRES_TO_VGA svga
            (runFunc MiniVDDFunc.PRE_HIRES_TO_VGA svga s)).traps 0x1CF = s.traps 0x1CF) := by
  intro svga s
  have hne : (0x1CE : Nat) ≠ 0x1CF := by decide
  refine ⟨?_, ?_, ?_⟩
  · simp [runFunc, Enable_Global_Trapping, Disable_Global_Trapping, hne]
  · simp [runFunc, Enable_Global_Trapping, Disable_Global_Trapping]
  · intro hE hF
    constructor
    · simp [runFunc, Enable_Global_Trapping, Disable_Global_Trapping, hne, hE]
    · simp [runFunc, Enable_Global_Trapping, Disable_Global_Trapping, hF]

/-- C3 amended, witness: at the concrete default state whose ports are all
host-trapped, the pair preserves port 0x1CE's flag. -/
theorem hires_to_vga_pair_enables_both_witness :
    (runFunc MiniVDDFunc.POST_HIRES_TO_VGA svga0
        (runFunc MiniVDDFunc.PRE_HIRES_TO_VGA svga0 stTrapped)).traps 0x1CE =
      stTrapped.traps 0x1CE :=
  ((hires_to_vga_pair_enables_both svga0 stTrapped).2.2 rfl rfl).1

/-- C4: every handler, run from any state where the trap-ownership flags of
ports 0x1CE and 0x1CF are equal, leaves them equal — the two bank-select
ports are always enabled or disabled together within one call. -/
theorem trap_flags_paired_invariant :
    ∀ (f : MiniVDDFunc) (svga : SVGAState) (s : VDDState),
      s.traps 0x1CE = s.traps 0x1CF →
      (runFunc f svga s).traps 0x1CE = (runFunc f svga s).traps 0x1CF := by
  intro f svga s h
  have hne : (0x1CE : Nat) ≠ 0x1CF := by decide
  cases f <;>
    simp [runFunc, Enable_Global_Trapping, Disable_Global_Trapping, hne, h]

/-- C4 witness: the invariant applied to the enable-traps handler at the
concrete all-trapped state. -/
theorem trap_flags_paired_invariant_witness :
    (runFunc MiniVDDFunc.ENABLE_TRAPS svga0 stTrapped).traps 0x1CE =
      (runFunc MiniVDDFunc.ENABLE_TRAPS svga0 stTrapped).traps 0x1CF :=
  trap_flags_paired_invariant MiniVDDFunc.ENABLE_TRAPS svga0 stTrapped rfl

/-- C5 counterexample: the pre-hires-save-restore handler (opcode 39) does not
disable trapping on the bank-select ports — from the all-trapped state it
leaves both flags enabled — and the post-hires-save-restore handler (opcode
40) does not re-enable trapping — from the all-untrapped state it leaves both
flags disabled. Both handlers are empty stubs in the source. -/
theorem pre_hires_save_restore_no_disable :
    (runOpcode 39 svga0 stTrapped).traps 0x1CE = true ∧
    (runOpcode 39 svga0 stTrapped).traps 0x1CF = true ∧
    (runOpcode 40 svga0 stUntrapped).traps 0x1CE = false ∧
    (runOpcode 40 svga0 stUntrapped).traps 0x1CF = false := by
  decide

/-- C5 amended: the pre-hires-save-restore (opcode 39) and
post-hires-save-restore (opcode 40) handlers are no-op stubs that leave the
whole state, including both bank-select ports' trap flags, unchanged; the
disable/re-enable bracketing of the host's mode change is instead performed
by the pre-hires-to-vga handler (disables trapping on both ports) and the
post-hires-to-vga handler (re-enables it on both). -/
theorem hires_save_restore_stubs_trap_bracketing :
    ∀ (svga : SVGAState) (s : VDDState),
      runOpcode 39 svga s = s ∧
      runOpcode 40 svga s = s ∧
      (runFunc MiniVDDFunc.PRE_HIRES_TO_VGA svga s).traps 0x1CE = false ∧
      (runFunc MiniVDDFunc.PRE_HIRES_TO_VGA svga s).traps 0x1CF = false ∧
      (runFunc MiniVDDFunc.POST_HIRES_TO_VGA svga s).traps 0x1CE = true ∧
      (runFunc MiniVDDFunc.POST_HIRES_TO_VGA svga s).traps 0x1CF = true := by
  intro svga s
  have hne : (0x1CE : Nat) ≠ 0x1CF := by decide
  refine ⟨rfl, rfl, ?_, ?_, ?_, ?_⟩ <;>
    simp [runFunc, Enable_Global_Trapping, Disable_Global_Trapping, hne]

/-- C6 counterexample: invoking set-bank (opcode 34) with read bank 1 and
write bank 2 and then invoking get-current-bank-read (opcode 33) leaves the
snapshot's EDX holding 2 — the write-bank value already in the request
snapshot — not the read bank 1 the claim states, because all three bank
handlers are empty stubs that record and report nothing. -/
theorem set_bank_get_bank_mismatch :
    setBankSnapshot.crs.Client_EAX = 1 ∧
    (runOpcode 33 svga0 (runOpcode 34 svga0 setBankSnapshot)).crs.Client_EDX = 2 ∧
    (runOpcode 33 svga0 (runOpcode 34 svga0 setBankSnapshot)).crs.Client_EDX ≠ 1 := by
  decide

/-- C6 amended: the set-bank (opcode 34), get-current-bank-write (opcode 32)
and get-current-bank-read (opcode 33) handlers are unimplemented no-op stubs
that leave the snapshot — including EDX and the carry flag — and all state
unchanged, so the EDX value observed after the sequence is whatever the
invocation snapshot already held, not necessarily the banks previously set. -/
theorem bank_handlers_are_noops :
    ∀ (svga : SVGAState) (s : VDDState),
      runOpcode 34 svga s = s ∧ runOpcode 32 svga s = s ∧ runOpcode 33 svga s = s :=
  fun _ _ => ⟨rfl, rfl, rfl⟩

/-- C7 counterexample: on a proprietary non-VESA mode (EAX not -1, mode number
0x1234) with the carry flag clear on entry, the check-screen-switch-ok
handler (opcode 43) leaves the carry flag clear — it reports "safe" rather
than the "unsafe" (carry) the claim states, because the handler is an empty
stub that never classifies the mode. -/
theorem check_screen_switch_ok_ignores_mode :
    proprietarySnapshot.crs.Client_EAX ≠ 0xFFFFFFFF ∧
    (runOpcode 43 svga0 proprietarySnapshot).crs.carryFlag = false := by
  decide

/-- C7 amended: the check-screen-switch-ok handler (opcode 43) is a no-op: for
every input mode it leaves the snapshot, including the carry flag, unchanged,
so the safety status the host observes is whatever was pre-set before the
call, independent of the mode's classification. -/
theorem check_screen_switch_ok_noop :
    ∀ (svga : SVGAState) (s : VDDState), runOpcode 43 svga s = s :=
  fun _ _ => rfl

/-- C8 counterexample: the set-hires-mode handler (opcode 38), invoked with an
unrecognized (proprietary) mode number 0x1234 and the carry flag clear on
entry, leaves the carry flag clear — it does not report "handled" as the
claim states, because the handler is an empty stub. -/
theorem set_hires_mode_not_handled :
    proprietaryModeSnapshot.crs.Client_EAX = 0x1234 ∧
    (runOpcode 38 svga0 proprietaryModeSnapshot).crs.carryFlag = false := by
  decide

/-- C8 amended: the set-hires-mode handler (opcode 38) is a no-op stub: for
every target mode number it leaves the snapshot and all state unchanged — in
particular it never reports "handled" on its own (the carry flag keeps its
pre-set value) and it trivially does not alter any VRAM-visible contents. -/
theorem set_hires_mode_noop :
    ∀ (svga : SVGAState) (s : VDDState), runOpcode 38 svga s = s :=
  fun _ _ => rfl

/-- C9: frame condition — every handler leaves EBX, EDX, ESI, EDI and EBP of
the snapshot unchanged; EAX is changed by no handler other than get-chip-id
(opcode 42); ECX by none other than get-total-vram-size (opcode 36); and the
carry flag (the handled signal) by none other than get-total-vram-size and
register-display-driver; for every input snapshot and adapter state. -/
theorem handler_frame_condition :
    ∀ (f : MiniVDDFunc) (svga : SVGAState) (s : VDDState),
      (runFunc f svga s).crs.Client_EBX = s.crs.Client_EBX ∧
      (runFunc f svga s).crs.Client_EDX = s.crs.Client_EDX ∧
      (runFunc f svga s).crs.Client_ESI = s.crs.Client_ESI ∧
      (runFunc f svga s).crs.Client_EDI = s.crs.Client_EDI ∧
      (runFunc f svga s).crs.Client_EBP = s.crs.Client_EBP ∧
      (f ≠ MiniVDDFunc.GET_CHIP_ID →
        (runFunc f svga s).crs.Client_EAX = s.crs.Client_EAX) ∧
      (f ≠ MiniVDDFunc.GET_TOTAL_VRAM_SIZE →
        (runFunc f svga s).crs.Client_ECX = s.crs.Client_ECX) ∧
      (f ≠ MiniVDDFunc.GET_TOTAL_VRAM_SIZE → f ≠ MiniVDDFunc.REGISTER_DISPLAY_DRIVER →
        (runFunc f svga s).crs.carryFlag = s.crs.carryFlag) := by
  intro f svga s
  cases f <;> cases hb : svga.svga_init_success <;>
    simp [runFunc, register_display_driver_body, get_chip_id_body,
      check_screen_switch_ok_body, get_bank_size_body, get_current_bank_read_body,
      get_current_bank_write_body, get_total_vram_size_body, pre_hires_save_restore_body,
      post_hires_save_restore_body, set_bank_body, set_hires_mode_body,
      vesa_call_post_processing_body, vesa_support_body, hb]

/-- C9 witness: the frame condition applied to the set-bank handler at a
concrete state, discharging the disequality hypothesis. -/
theorem handler_frame_condition_witness :
    (runFunc MiniVDDFunc.SET_BANK svga0 stTrapped).crs.Client_EAX =
      stTrapped.crs.Client_EAX :=
  (handler_frame_condition MiniVDDFunc.SET_BANK svga0 stTrapped).2.2.2.2.2.1 (by decide)

/-- C10: the get-chip-id handler (opcode 42) leaves the carry flag exactly as
it found it on every path; when the adapter is uninitialized it writes 0 into
EAX without reporting "unhandled" — unlike get-total-vram-size (opcode 36),
which clears the carry flag (reports "unhandled") in that situation. -/
theorem get_chip_id_carry_untouched :
    ∀ (svga : SVGAState) (s : VDDState),
      (runOpcode 42 svga s).crs.carryFlag = s.crs.carryFlag ∧
      (svga.svga_init_success = false → (runOpcode 42 svga s).crs.Client_EAX = 0) ∧
      (svga.svga_init_success = false → (runOpcode 36 svga s).crs.carryFlag = false) := by
  intro svga s
  cases hb : svga.svga_init_success <;>
    simp [runOpcode, dispatch, runFunc, get_chip_id_body, get_total_vram_size_body, hb]

/-- C10 witness: at the concrete uninitialized adapter, get-chip-id writes 0
into EAX and get-total-vram-size clears the carry flag. -/
theorem get_chip_id_carry_untouched_witness :
    svgaOff.svga_init_success = false ∧
    (runOpcode 42 svgaOff stTrapped).crs.Client_EAX = 0 ∧
    (runOpcode 36 svgaOff stTrapped).crs.carryFlag = false :=
  ⟨by decide,
   (get_chip_id_carry_untouched svgaOff stTrapped).2.1 (by decide),
   (get_chip_id_carry_untouched svgaOff stTrapped).2.2 (by decide)⟩
